import Mathlib

/-!
Shallow embedding of `src/var_inspector/var_inspector/var_inspector.py`.

The program is a Python introspection helper (`class VarInspector`).  We model
Python values abstractly: a `PyVal` records exactly the observations the
program makes of a value (its runtime type name, whether it is a module /
function / builtin-function / callable, its `sys.getsizeof` byte count, the
outcome of `len(...)` when the value looks `Sized`, its `repr`, its
`inspect.getdoc` result, and its `inspect.signature` result).  Raisable Python
operations are modelled with `Except PyErr`.  Pandas' two mutated display
options form a `DisplaySettings` state threaded through `__call__`.

Python string semantics used by the program (`str.lower`, `str.startswith`,
`str.endswith`, lexicographic `<` on code points) are modelled on `String.data`
(the list of code points) so that everything reduces in the kernel.
-/

namespace VarInspectorModel

/-- Kinds of Python exceptions the program distinguishes (`except AttributeError`,
`except TypeError`, `except ValueError`, `except OSError`); `runtimeError`
stands for any exception class the program never catches. -/
inductive PyErr where
  | attributeError
  | typeError
  | valueError
  | osError
  | runtimeError
deriving DecidableEq, Repr

/-- Abstract model of a Python value, recording exactly the observations
`var_inspector.py` makes of a value.  `lenQuery = none` models a value that is
not `collections.abc.Sized` (no `__len__`); `some r` models a `Sized` value
whose `len(...)` call returns `r` (a raising `__len__` is `some (.error e)`).
`sigStr = none` models `inspect.signature` raising `ValueError`.
`doc = none` models `inspect.getdoc` returning `None`.  `truthy` is the
value's Python truth value (never consulted by the program, kept to state
that dispatch is by the `None` sentinel, not truthiness). -/
structure PyVal where
  typeName : String
  truthy : Bool
  isModule : Bool
  isFunction : Bool
  isBuiltinFunction : Bool
  isCallable : Bool
  sizeBytes : Nat
  lenQuery : Option (Except PyErr Nat)
  reprStr : String
  doc : Option String
  sigStr : Option String

/-- The pandas display options the program saves, overrides and restores.
A pandas option value may be `None` (modelled `none`) or an int. -/
structure DisplaySettings where
  maxColwidth : Option Nat
  maxRows : Option Nat
deriving DecidableEq, Repr

/-- Configuration of a constructed `VarInspector` (fields of `self`). -/
structure VarInspector where
  excludeNames : List String
  descending : Bool
  maxStrLength : Nat
  maxRows : Option Nat

/-- `VarInspector.__init__`: `exclude_names` defaults to the fixed set of
interactive-session artifacts; `max_rows` falls back to the ambient
`pd.get_option("display.max_rows")` when given as `None`. -/
def VarInspector.mk' (excludeNames : Option (List String)) (descending : Bool)
    (maxStrLength : Nat) (maxRows : Option Nat) (ambient : DisplaySettings) :
    VarInspector :=
  { excludeNames := (match excludeNames with
      | some ns => ns
      | none => ["In", "Out", "_", "exit", "quit", "get_ipython"])
    descending := descending
    maxStrLength := maxStrLength
    maxRows := (match maxRows with
      | some n => some n
      | none => ambient.maxRows) }

/- ## Python string operations on code-point lists -/

/-- `xs` begins with `ys` (code-point lists). -/
def charsBeginWith : List Char → List Char → Bool
  | _, [] => true
  | [], _ :: _ => false
  | a :: as, b :: bs => a = b && charsBeginWith as bs

/-- Python `s.startswith(pre)`. -/
def pyStartsWith (s pre : String) : Bool :=
  charsBeginWith s.data pre.data

/-- Python `s.endswith(suf)`. -/
def pyEndsWith (s suf : String) : Bool :=
  charsBeginWith s.data.reverse suf.data.reverse

/-- Python `s.lower()` (code-point-wise lowercasing). -/
def pyLower (s : String) : String :=
  String.mk (s.data.map Char.toLower)

/-- Lexicographic `≤` on code-point lists, Python's string comparison. -/
def lexLe : List Char → List Char → Bool
  | [], _ => true
  | _ :: _, [] => false
  | a :: as, b :: bs => if a = b then lexLe as bs else decide (a < b)

/-- Python `a <= b` on strings. -/
def pyStrLe (a b : String) : Bool :=
  lexLe a.data b.data

/- ## Row / cell shapes of the rendered tables -/

/-- The `Len` column: either Python `len(...)` (an int) or the marker `"-"`. -/
inductive LenCell where
  | dash
  | num (n : Nat)
deriving DecidableEq, Repr

/-- The `Size (MB)` column: either the marker `"-"` or the rendered
`f"{bytes/(1024**2):.2f}"` for a given `sys.getsizeof` byte count (the
floating-point formatting is kept symbolic as the byte count it renders). -/
inductive SizeCell where
  | dash
  | mb (bytes : Nat)
deriving DecidableEq, Repr

/-- The `Signature` column: `"-"` for non-callables, `"N/A"` when
`inspect.signature` raised `ValueError`, else the formatted signature. -/
inductive SigCell where
  | dash
  | na
  | sig (s : String)
deriving DecidableEq, Repr

/-- One row of the global-variables table built by `_display_globals`. -/
structure GlobalRow where
  name : String
  type : String
  sizeMB : SizeCell
  len : LenCell
  value : String
deriving DecidableEq, Repr

/-- One row of the attribute table built by `_display_attributes`. -/
structure AttrRow where
  name : String
  type : String
  signatureCol : SigCell
  sizeMB : SizeCell
  len : LenCell
  value : String
deriving DecidableEq, Repr

/-- The transposed single-object table built by `_display_overview`. -/
structure Overview where
  type : String
  module : String
  sourceFile : String
  filePath : String
  sourceLines : String
  sizeMB : SizeCell
  doc : String
deriving DecidableEq, Repr

/- ## The inspected-object model for object mode -/

/-- Model of the object handed to object mode (`_display_overview` /
`_display_attributes`), recording the outcomes of the introspection calls the
program makes on it.
* `module`: `inspect.getmodule(obj)`'s module name, `none` when it returns `None`.
* `hasCodeAttr`: `hasattr(obj, "__code__")`.
* `fileOk`: `some path` when `inspect.getfile(obj)` (hence also
  `inspect.getsourcefile(obj)`, which goes through `getfile`) succeeds with
  that path; `none` when `getfile` raises `TypeError` (object is none of
  module/class/method/function/traceback/frame/code — e.g. any plain object,
  even one carrying a spoofed `__code__` attribute).
* `sourceOk`: when `fileOk` is `some _`, `some n` means
  `inspect.getsourcelines(obj)` returns `(lines, n)`; `none` means it raises
  `OSError` (source text unavailable).
* `dirList`: `dir(obj)` paired with each `getattr(obj, name)` outcome. -/
structure InspObj where
  val : PyVal
  module : Option String
  hasCodeAttr : Bool
  fileOk : Option String
  sourceOk : Option Nat
  dirList : List (String × Except PyErr PyVal)

/- ## The embedded methods -/

/-- `VarInspector._format_value`: `repr(value)`. -/
def formatValue (v : PyVal) : String :=
  v.reprStr

/-- `VarInspector._get_size_mb` feeding an f-string cell:
`f"{sys.getsizeof(obj)/(1024**2):.2f}"`, kept symbolic as the byte count. -/
def getSizeMBCell (v : PyVal) : SizeCell :=
  SizeCell.mb v.sizeBytes

/-- `VarInspector._get_length`: `if isinstance(obj, Sized): return len(obj)`
(the `len` call may itself raise — there is no guard) `else return "-"`. -/
def getLength (v : PyVal) : Except PyErr LenCell :=
  match v.lenQuery with
  | some r =>
    match r with
    | .ok n => .ok (LenCell.num n)
    | .error e => .error e
  | none => .ok LenCell.dash

/-- `inspect.getdoc(value) or "No documentation available"` (Python `or`
also replaces an empty docstring). -/
def docOr (d : Option String) : String :=
  match d with
  | some s => if s = "" then "No documentation available" else s
  | none => "No documentation available"

/- ### _display_overview -/

/-- `VarInspector._display_overview`.  Mirrors the three `try` blocks:
the first catches `TypeError` around `getmodule`/`getsourcefile` (in the model
only `getsourcefile` can raise, and only `TypeError`, so `module_name` is
always assigned before the handler runs); the second catches `TypeError`
around `getfile`; the third calls `getsourcelines` when
`hasattr(obj, "__code__")` but catches **only `OSError`**, so the `TypeError`
that `getsourcelines` raises (through `getfile`) when the object is not a
module/class/method/function/… propagates and aborts the overview. -/
def displayOverview (obj : InspObj) : Except PyErr Overview :=
  let moduleName := match obj.module with
    | some m => m
    | none => "Unknown module"
  let sourceFile :=
    if obj.hasCodeAttr then
      match obj.fileOk with
      | some p => p
      | none => "Source file not applicable"
    else "Source file not available"
  let filePath := match obj.fileOk with
    | some p => p
    | none => "File not applicable"
  let sourceLinesR : Except PyErr (Option Nat) :=
    if obj.hasCodeAttr then
      match obj.fileOk with
      | none => .error PyErr.typeError
      | some _ =>
        match obj.sourceOk with
        | some n => .ok (some n)
        | none => .ok none
    else .ok none
  match sourceLinesR with
  | .error e => .error e
  | .ok slNum =>
    .ok { type := obj.val.typeName
          module := moduleName
          sourceFile := sourceFile
          filePath := filePath
          sourceLines := (match slNum with
            | some n => if n = 0 then "No source line info" else s!"Starts at line {n}"
            | none => "No source line info")
          sizeMB := getSizeMBCell obj.val
          doc := docOr obj.val.doc }

/- ### _display_globals -/

/-- The namespaces in play at a call site.  Python's `globals()` evaluated
inside `var_inspector.py` yields the namespace of the **defining module**
(`var_inspector`), not the caller's; both are carried so the distinction can
be stated. -/
structure CallContext where
  callerEnv : List (String × PyVal)
  definingEnv : List (String × PyVal)

/-- The dict-comprehension condition in `_display_globals`:
`include_advanced_details or (not any(name.startswith(exclude) ...) and
not isinstance(value, (ModuleType, FunctionType, BuiltinFunctionType)) and
not name.endswith("_"))`. -/
def keepBinding (insp : VarInspector) (adv : Bool) (n : String) (v : PyVal) : Bool :=
  adv || (!(insp.excludeNames.any fun ex => pyStartsWith n ex)
          && !(v.isModule || v.isFunction || v.isBuiltinFunction)
          && !(pyEndsWith n "_"))

/-- Key for `sorted(global_vars.items(), key=lambda x: x[0].lower(), ...)`. -/
def nameLe (a b : String × PyVal) : Bool :=
  pyStrLe (pyLower a.1) (pyLower b.1)

/-- The comparison `sorted` uses, as a decidable relation. -/
def nameRel (a b : String × PyVal) : Prop :=
  nameLe a b = true

instance : DecidableRel nameRel :=
  fun a b => instDecidableEqBool (nameLe a b) true

/-- Python's `sorted(l, key, reverse)`.  `sorted` is a stable sort, and a
stable sort's output is uniquely determined by the comparison and the input
order, so the (stable) insertion sort is extensionally the same function;
CPython realises `reverse=True` by reversing before and after the stable
ascending sort. -/
def pySorted (desc : Bool) (l : List (String × PyVal)) : List (String × PyVal) :=
  if desc then (List.insertionSort nameRel l.reverse).reverse
  else List.insertionSort nameRel l

/-- The row-building `for` loop of `_display_globals`; `_get_length` may
raise (unguarded there), which aborts the whole report. -/
def buildGlobalRows : List (String × PyVal) → Except PyErr (List GlobalRow)
  | [] => .ok []
  | (n, v) :: rest =>
    match getLength v with
    | .error e => .error e
    | .ok lenCell =>
      match buildGlobalRows rest with
      | .error e => .error e
      | .ok rows =>
        .ok ({ name := n
               type := v.typeName
               sizeMB := getSizeMBCell v
               len := lenCell
               value := formatValue v } :: rows)

/-- `VarInspector._display_globals`: filters **`globals()` of the defining
module** (`ctx.definingEnv` — not the caller's namespace), sorts by
case-insensitive name with `reverse=self.descending`, and builds the rows. -/
def displayGlobals (insp : VarInspector) (ctx : CallContext) (adv : Bool) :
    Except PyErr (List GlobalRow) :=
  buildGlobalRows
    (pySorted insp.descending
      (ctx.definingEnv.filter fun p => keepBinding insp adv p.1 p.2))

/- ### _display_attributes -/

/-- Whether the loop body runs for an attribute name:
`include_advanced_details or not attr.startswith("_")`. -/
def shownAttr (adv : Bool) (attr : String) : Bool :=
  adv || !(pyStartsWith attr "_")

/-- The diagnostic printed when the per-attribute `except AttributeError`
handler fires: `print(f"Attribute {attr} is not accessible.")`. -/
def diagMsg (attr : String) : String :=
  s!"Attribute {attr} is not accessible."

/-- The body of the per-attribute `try`: build the row for a callable
(`Type "Method"`, signature or `"N/A"` on `ValueError`, doc-or-placeholder,
size and length left `"-"`), else the generic row (whose `_get_length` call
may raise). -/
def attrRowOf (attr : String) (v : PyVal) : Except PyErr AttrRow :=
  if v.isCallable then
    .ok { name := attr
          type := "Method"
          signatureCol := (match v.sigStr with
            | some s => SigCell.sig s
            | none => SigCell.na)
          sizeMB := SizeCell.dash
          len := LenCell.dash
          value := docOr v.doc }
  else
    match getLength v with
    | .error e => .error e
    | .ok lenCell =>
      .ok { name := attr
            type := v.typeName
            signatureCol := SigCell.dash
            sizeMB := getSizeMBCell v
            len := lenCell
            value := formatValue v }

/-- Everything inside one iteration's `try`: the `getattr` read followed by
the row construction. -/
def entryOutcome (attr : String) (res : Except PyErr PyVal) : Except PyErr AttrRow :=
  match res with
  | .error e => .error e
  | .ok v => attrRowOf attr v

/-- The `for attr in dir(obj)` loop of `_display_attributes`: the `try`
catches **only `AttributeError`** (printing the diagnostic and skipping the
attribute); any other exception propagates and aborts the report.  Returns
the accumulated rows and the printed diagnostics. -/
def attrsLoop (adv : Bool) :
    List (String × Except PyErr PyVal) → Except PyErr (List AttrRow × List String)
  | [] => .ok ([], [])
  | p :: rest =>
    if shownAttr adv p.1 then
      match entryOutcome p.1 p.2 with
      | .ok row =>
        match attrsLoop adv rest with
        | .ok (rows, msgs) => .ok (row :: rows, msgs)
        | .error e => .error e
      | .error PyErr.attributeError =>
        match attrsLoop adv rest with
        | .ok (rows, msgs) => .ok (rows, diagMsg p.1 :: msgs)
        | .error e => .error e
      | .error e => .error e
    else attrsLoop adv rest

/-- `VarInspector._display_attributes`. -/
def displayAttributes (obj : InspObj) (adv : Bool) :
    Except PyErr (List AttrRow × List String) :=
  attrsLoop adv obj.dirList

/-- The rows `_display_attributes` accumulates when nothing uncaught is
raised: one per shown attribute whose read and row construction succeed,
in directory order. -/
def okRows (adv : Bool) (l : List (String × Except PyErr PyVal)) : List AttrRow :=
  l.filterMap fun p =>
    if shownAttr adv p.1 then (entryOutcome p.1 p.2).toOption else none

/-- The diagnostics `_display_attributes` prints: one per shown attribute
whose read (or row construction) raised `AttributeError`. -/
def failDiags (adv : Bool) (l : List (String × Except PyErr PyVal)) : List String :=
  l.filterMap fun p =>
    if shownAttr adv p.1 && !(entryOutcome p.1 p.2).isOk then some (diagMsg p.1)
    else none

/-- No shown attribute raises anything other than `AttributeError` during
its read or row construction. -/
def onlyAttrErrors (adv : Bool) (l : List (String × Except PyErr PyVal)) : Bool :=
  l.all fun p =>
    if shownAttr adv p.1 then
      match entryOutcome p.1 p.2 with
      | .ok _ => true
      | .error PyErr.attributeError => true
      | .error _ => false
    else true

/- ### __call__ -/

/-- What an invocation renders: the global-variable table, or the overview
table followed by the attribute table (with its printed diagnostics). -/
inductive Output where
  | globalsReport (rows : List GlobalRow)
  | objectReport (overview : Overview) (rows : List AttrRow) (diagnostics : List String)

/-- The `else` branch of `__call__`: overview, then attributes. -/
def objectBody (obj : InspObj) (adv : Bool) : Except PyErr Output :=
  match displayOverview obj with
  | .error e => .error e
  | .ok ov =>
    match displayAttributes obj adv with
    | .error e => .error e
    | .ok (rows, msgs) => .ok (Output.objectReport ov rows msgs)

/-- `VarInspector.__call__` as a transformer of the pandas display settings:
save `display.max_colwidth` / `display.max_rows`, override them with
`self.max_str_length` / `self.max_rows`, dispatch on `var is None`
(the `None` sentinel — not truthiness), and in `finally` restore the saved
originals whether the body returned or raised. -/
def call (insp : VarInspector) (ctx : CallContext) (var : Option InspObj)
    (adv : Bool) (s : DisplaySettings) : Except PyErr Output × DisplaySettings :=
  let originalMaxColwidth := s.maxColwidth
  let originalMaxRows := s.maxRows
  let _overridden : DisplaySettings :=
    { maxColwidth := some insp.maxStrLength, maxRows := insp.maxRows }
  let body : Except PyErr Output :=
    match var with
    | none => Except.map Output.globalsReport (displayGlobals insp ctx adv)
    | some obj => objectBody obj adv
  (body, { maxColwidth := originalMaxColwidth, maxRows := originalMaxRows })

/- ## Concrete sample values: models of specific Python objects -/

/-- The Python int `1`. -/
def intOne : PyVal :=
  { typeName := "int", truthy := true, isModule := false, isFunction := false,
    isBuiltinFunction := false, isCallable := false, sizeBytes := 28,
    lenQuery := none, reprStr := "1", doc := none, sigStr := none }

/-- The Python int `0` (a falsy value). -/
def intZero : PyVal :=
  { intOne with truthy := false, reprStr := "0" }

/-- The 3-element Python list `[1, 2, 3]`. -/
def listThree : PyVal :=
  { intOne with
    typeName := "list", sizeBytes := 88,
    lenQuery := some (.ok 3), reprStr := "[1, 2, 3]" }

/-- An instance of a class whose `__len__` raises `RuntimeError`: it is still
an `instance` of `collections.abc.Sized` (that protocol only checks that
`__len__` exists), but `len(...)` on it raises. -/
def badLenVal : PyVal :=
  { intOne with
    typeName := "BadLen", sizeBytes := 48,
    lenQuery := some (.error PyErr.runtimeError), reprStr := "<BadLen>" }

/-- An imported module object. -/
def moduleVal : PyVal :=
  { intOne with
    typeName := "module", isModule := true, sizeBytes := 72,
    reprStr := "<module>" }

/-- A plain Python function. -/
def funcVal : PyVal :=
  { intOne with
    typeName := "function", isFunction := true, isCallable := true,
    sizeBytes := 136, reprStr := "<function f>",
    doc := some "Docstring of f.", sigStr := some "(x)" }

/-- A bound method with a docstring and an introspectable signature. -/
def methodVal : PyVal :=
  { intOne with
    typeName := "method", isCallable := true, sizeBytes := 64,
    reprStr := "<bound method>", doc := some "Adds two numbers.",
    sigStr := some "(x, y)" }

/-- Ambient pandas display settings used by the sample scenarios. -/
def ambient0 : DisplaySettings :=
  { maxColwidth := some 50, maxRows := some 60 }

/-- `VarInspector(max_str_length=300, max_rows=300)` — the packaged default
instance `view_var`. -/
def insp0 : VarInspector :=
  VarInspector.mk' none false 300 (some 300) ambient0

/-- Scenario for the namespace question: the caller's module binds only `x`,
while `var_inspector.py`'s own module globals bind only `y`. -/
def ctxTwoEnvs : CallContext :=
  { callerEnv := [("x", intOne)], definingEnv := [("y", listThree)] }

/-- Enumerated globals `{"b": 1, "A": 2, "c": 3}` — the spec's sorting
example. -/
def ctxSortExample : CallContext :=
  { callerEnv := [],
    definingEnv := [("b", intOne), ("A", { intOne with reprStr := "2" }),
                    ("c", { intOne with reprStr := "3" })] }

/-- Enumerated globals mixing filtered and surviving bindings: `In_hist`
(starts with the excluded `In`), `os` (a module), `f` (a function), `tmp_`
(trailing underscore), and the plain values `x` and `data`. -/
def ctxFilterExample : CallContext :=
  { callerEnv := [],
    definingEnv := [("In_hist", listThree), ("os", moduleVal), ("f", funcVal),
                    ("tmp_", intOne), ("x", intOne), ("data", listThree)] }

/-- The object-mode model of plain `0`: falsy, no `__code__`, no attributes
listed (kept empty to keep the scenario minimal). -/
def zeroObj : InspObj :=
  { val := intZero, module := none, hasCodeAttr := false, fileOk := none,
    sourceOk := none, dirList := [] }

/-- A `types.SimpleNamespace()` instance carrying `__code__ = 42`:
`hasattr(obj, "__code__")` is true, yet `inspect.getfile` — and therefore
`inspect.getsourcelines` — raises `TypeError` on it. -/
def fakeCodeObj : InspObj :=
  { val := { intOne with
               typeName := "SimpleNamespace", sizeBytes := 56,
               reprStr := "namespace(...)" },
    module := none, hasCodeAttr := true, fileOk := none, sourceOk := none,
    dirList := [] }

/-- An object whose attribute `bad` raises `RuntimeError` when read (a
property with a raising getter) while its attribute `ok` reads fine. -/
def runtimeErrObj : InspObj :=
  { val := { intOne with typeName := "Holder" }, module := none,
    hasCodeAttr := false, fileOk := none, sourceOk := none,
    dirList := [("bad", .error PyErr.runtimeError), ("ok", .ok listThree)] }

/-- An object whose attribute `broken` raises `AttributeError` when read,
listed between two readable attributes `add` (a method) and `data` (a list). -/
def attrErrObj : InspObj :=
  { val := { intOne with typeName := "Holder2" }, module := none,
    hasCodeAttr := false, fileOk := none, sourceOk := none,
    dirList := [("add", .ok methodVal), ("broken", .error PyErr.attributeError),
                ("data", .ok listThree)] }

/-- The global-row the binding `("data", listThree)` renders to. -/
def rowData : GlobalRow :=
  { name := "data", type := "list", sizeMB := .mb 88, len := .num 3,
    value := "[1, 2, 3]" }

/-- The global-row the binding `("x", intOne)` renders to. -/
def rowX : GlobalRow :=
  { name := "x", type := "int", sizeMB := .mb 28, len := .dash, value := "1" }

/-- The rows of the unfiltered (`includeAdvanced=true`) report over
`ctxFilterExample`, in case-insensitive name order. -/
def advRows : List GlobalRow :=
  [rowData,
   { name := "f", type := "function", sizeMB := .mb 136, len := .dash,
     value := "<function f>" },
   { name := "In_hist", type := "list", sizeMB := .mb 88, len := .num 3,
     value := "[1, 2, 3]" },
   { name := "os", type := "module", sizeMB := .mb 72, len := .dash,
     value := "<module>" },
   { name := "tmp_", type := "int", sizeMB := .mb 28, len := .dash,
     value := "1" },
   rowX]

/-- The rows of the default report over `ctxSortExample`, in sorted order. -/
def sortRows : List GlobalRow :=
  [{ name := "A", type := "int", sizeMB := .mb 28, len := .dash, value := "2" },
   { name := "b", type := "int", sizeMB := .mb 28, len := .dash, value := "1" },
   { name := "c", type := "int", sizeMB := .mb 28, len := .dash, value := "3" }]

/-- The attribute-row of the readable method `add` of `attrErrObj`. -/
def rowAdd : AttrRow :=
  { name := "add", type := "Method", signatureCol := .sig "(x, y)",
    sizeMB := .dash, len := .dash, value := "Adds two numbers." }

/-- The attribute-row of the readable list attribute `data` of `attrErrObj`. -/
def rowDataAttr : AttrRow :=
  { name := "data", type := "list", signatureCol := .dash, sizeMB := .mb 88,
    len := .num 3, value := "[1, 2, 3]" }

/- ## Helper lemmas about the sorting comparison -/

theorem lexLe_total (as bs : List Char) : lexLe as bs = true ∨ lexLe bs as = true := by
  induction as generalizing bs with
  | nil => exact Or.inl rfl
  | cons a as ih =>
    cases bs with
    | nil => exact Or.inr rfl
    | cons b bs =>
      by_cases hab : a = b
      · subst hab
        rcases ih bs with h | h
        · exact Or.inl (by simpa [lexLe] using h)
        · exact Or.inr (by simpa [lexLe] using h)
      · rcases lt_or_gt_of_ne hab with h | h
        · exact Or.inl (by simp [lexLe, hab, h])
        · exact Or.inr (by simp [lexLe, Ne.symm hab, h])

theorem lexLe_trans (as bs cs : List Char) (h1 : lexLe as bs = true)
    (h2 : lexLe bs cs = true) : lexLe as cs = true := by
  induction as generalizing bs cs with
  | nil => rfl
  | cons a as ih =>
    cases bs with
    | nil => simp [lexLe] at h1
    | cons b bs =>
      cases cs with
      | nil => simp [lexLe] at h2
      | cons c cs =>
        simp only [lexLe] at h1 h2 ⊢
        by_cases hab : a = b
        · subst hab
          rw [if_pos rfl] at h1
          by_cases hbc : a = c
          · subst hbc
            rw [if_pos rfl] at h2 ⊢
            exact ih bs cs h1 h2
          · rw [if_neg hbc] at h2 ⊢
            exact h2
        · rw [if_neg hab] at h1
          have hltab : a < b := of_decide_eq_true h1
          by_cases hbc : b = c
          · subst hbc
            rw [if_neg hab]
            exact h1
          · rw [if_neg hbc] at h2
            have hltbc : b < c := of_decide_eq_true h2
            have hltac : a < c := lt_trans hltab hltbc
            rw [if_neg (ne_of_lt hltac)]
            exact decide_eq_true hltac

instance : IsTotal (String × PyVal) nameRel :=
  ⟨fun a b => lexLe_total (pyLower a.1).data (pyLower b.1).data⟩

instance : IsTrans (String × PyVal) nameRel :=
  ⟨fun a b c h1 h2 =>
    lexLe_trans (pyLower a.1).data (pyLower b.1).data (pyLower c.1).data h1 h2⟩

/-- Ascending sort output is pairwise `nameRel`-ordered. -/
theorem pairwise_pySorted_asc (l : List (String × PyVal)) :
    (pySorted false l).Pairwise nameRel :=
  List.sorted_insertionSort nameRel l

/-- Descending sort output is pairwise ordered by the flipped comparison. -/
theorem pairwise_pySorted_desc (l : List (String × PyVal)) :
    (pySorted true l).Pairwise fun a b => nameRel b a :=
  List.pairwise_reverse.mpr (List.sorted_insertionSort nameRel l.reverse)

/-- Sorting only permutes the bindings. -/
theorem pySorted_perm (d : Bool) (l : List (String × PyVal)) :
    (pySorted d l).Perm l := by
  cases d with
  | false => exact List.perm_insertionSort nameRel l
  | true =>
    exact ((List.reverse_perm _).trans
      ((List.perm_insertionSort nameRel l.reverse).trans (List.reverse_perm l)))

theorem mem_pySorted {d : Bool} {l : List (String × PyVal)} {p : String × PyVal} :
    p ∈ pySorted d l ↔ p ∈ l :=
  (pySorted_perm d l).mem_iff

/- ## Helper lemmas about the row-building loops -/

theorem buildGlobalRows_names (l : List (String × PyVal)) :
    ∀ rows, buildGlobalRows l = .ok rows → rows.map GlobalRow.name = l.map Prod.fst := by
  induction l with
  | nil =>
    intro rows h
    cases h
    rfl
  | cons p rest ih =>
    intro rows h
    obtain ⟨n, v⟩ := p
    simp only [buildGlobalRows] at h
    cases hl : getLength v with
    | error e => rw [hl] at h; cases h
    | ok lenCell =>
      rw [hl] at h
      cases hr : buildGlobalRows rest with
      | error e => rw [hr] at h; cases h
      | ok rows2 =>
        rw [hr] at h
        cases h
        simp [ih rows2 hr]

theorem buildGlobalRows_mem (l : List (String × PyVal)) (rows : List GlobalRow)
    (h : buildGlobalRows l = .ok rows) (r : GlobalRow) (hr : r ∈ rows) :
    ∃ p ∈ l, r.name = p.1 := by
  have hn : r.name ∈ l.map Prod.fst := by
    rw [← buildGlobalRows_names l rows h]
    exact List.mem_map_of_mem GlobalRow.name hr
  obtain ⟨p, hp, he⟩ := List.mem_map.mp hn
  exact ⟨p, hp, he.symm⟩

theorem attrsLoop_ok_of_onlyAttrErrors (adv : Bool)
    (l : List (String × Except PyErr PyVal)) (h : onlyAttrErrors adv l = true) :
    attrsLoop adv l = .ok (okRows adv l, failDiags adv l) := by
  induction l with
  | nil => rfl
  | cons p rest ih =>
    simp only [onlyAttrErrors, List.all_cons, Bool.and_eq_true] at h
    have hrest := ih h.2
    have hp := h.1
    cases hs : shownAttr adv p.1 with
    | false =>
      have e1 : okRows adv (p :: rest) = okRows adv rest := by
        simp [okRows, List.filterMap_cons, hs]
      have e2 : failDiags adv (p :: rest) = failDiags adv rest := by
        simp [failDiags, List.filterMap_cons, hs]
      rw [e1, e2]
      simpa [attrsLoop, hs] using hrest
    | true =>
      rw [hs] at hp
      simp only [if_pos rfl] at hp
      cases ho : entryOutcome p.1 p.2 with
      | ok row =>
        have e1 : okRows adv (p :: rest) = row :: okRows adv rest := by
          simp [okRows, List.filterMap_cons, hs, ho, Except.toOption]
        have e2 : failDiags adv (p :: rest) = failDiags adv rest := by
          simp [failDiags, List.filterMap_cons, hs, ho, Except.isOk, Except.toBool]
        rw [e1, e2]
        simp [attrsLoop, hs, ho, hrest]
      | error e =>
        rw [ho] at hp
        cases e with
        | attributeError =>
          have e1 : okRows adv (p :: rest) = okRows adv rest := by
            simp [okRows, List.filterMap_cons, hs, ho, Except.toOption]
          have e2 : failDiags adv (p :: rest) = diagMsg p.1 :: failDiags adv rest := by
            simp [failDiags, List.filterMap_cons, hs, ho, Except.isOk, Except.toBool]
          rw [e1, e2]
          simp [attrsLoop, hs, ho, hrest]
        | typeError => simp at hp
        | valueError => simp at hp
        | osError => simp at hp
        | runtimeError => simp at hp

theorem attrsLoop_callable_mem (adv : Bool)
    (l : List (String × Except PyErr PyVal)) (attr : String) (v : PyVal)
    (rows : List AttrRow) (msgs : List String)
    (h : attrsLoop adv l = .ok (rows, msgs))
    (hmem : (attr, Except.ok v) ∈ l) (hc : v.isCallable = true)
    (hs : shownAttr adv attr = true) :
    ∃ row ∈ rows, row.name = attr ∧ row.type = "Method"
      ∧ row.signatureCol = (match v.sigStr with
          | some s => SigCell.sig s
          | none => SigCell.na)
      ∧ row.sizeMB = SizeCell.dash ∧ row.len = LenCell.dash
      ∧ row.value = docOr v.doc := by
  induction l generalizing rows msgs with
  | nil => cases hmem
  | cons p rest ih =>
    rcases List.mem_cons.mp hmem with hp | hmem2
    · subst hp
      rw [attrsLoop] at h
      rw [hs] at h
      simp only [if_pos rfl] at h
      have hrow : entryOutcome attr (Except.ok v) = .ok
          { name := attr, type := "Method"
            signatureCol := (match v.sigStr with
              | some s => SigCell.sig s
              | none => SigCell.na)
            sizeMB := SizeCell.dash, len := LenCell.dash
            value := docOr v.doc } := by
        simp [entryOutcome, attrRowOf, hc]
      rw [hrow] at h
      cases hr : attrsLoop adv rest with
      | error e => rw [hr] at h; cases h
      | ok pr =>
        obtain ⟨rows2, msgs2⟩ := pr
        rw [hr] at h
        cases h
        exact ⟨_, List.mem_cons_self _ _, rfl, rfl, rfl, rfl, rfl, rfl⟩
    · rw [attrsLoop] at h
      cases hsp : shownAttr adv p.1 with
      | false =>
        rw [hsp] at h
        simp only [Bool.false_eq_true, if_neg] at h
        exact ih rows msgs (by simpa using h) hmem2
      | true =>
        rw [hsp] at h
        simp only [if_pos rfl] at h
        cases ho : entryOutcome p.1 p.2 with
        | ok row0 =>
          rw [ho] at h
          cases hr : attrsLoop adv rest with
          | error e => rw [hr] at h; cases h
          | ok pr =>
            obtain ⟨rows2, msgs2⟩ := pr
            rw [hr] at h
            cases h
            obtain ⟨row, hrow, hps⟩ := ih _ _ hr hmem2
            exact ⟨row, List.mem_cons_of_mem _ hrow, hps⟩
        | error e =>
          rw [ho] at h
          cases e with
          | attributeError =>
            cases hr : attrsLoop adv rest with
            | error e2 => rw [hr] at h; cases h
            | ok pr =>
              obtain ⟨rows2, msgs2⟩ := pr
              rw [hr] at h
              cases h
              exact ih _ _ hr hmem2
          | typeError => cases h
          | valueError => cases h
          | osError => cases h
          | runtimeError => cases h

/- ## Claim theorems -/

/-- C1: for every constructed Inspector and every invocation of `__call__`
(with or without a target, whether the body completes normally or raises),
the ambient `display.max_colwidth` and `display.max_rows` settings after the
call equal their values immediately before the call — the `finally` block
restores the saved originals on every exit path. -/
theorem call_restores_display_settings (insp : VarInspector) (ctx : CallContext)
    (var : Option InspObj) (adv : Bool) (s : DisplaySettings) :
    (call insp ctx var adv s).2 = s := by
  cases s
  rfl

/-- C2 (code bug): `_display_globals` enumerates `globals()` of the module
that defines `VarInspector`, not the caller's environment.  With the caller
binding only `x` while the defining module's globals bind only `y`, the
rendered report lists `y` and not `x`. -/
theorem displayGlobals_reads_defining_env_not_caller :
    Except.map (fun rows => rows.map GlobalRow.name)
        (displayGlobals insp0 ctxTwoEnvs false) = .ok ["y"]
      ∧ ctxTwoEnvs.callerEnv.map Prod.fst = ["x"] :=
  ⟨rfl, rfl⟩

/-- C3 (counterexample): the per-attribute guard catches only
`AttributeError`, so an attribute whose read raises any other exception
(here `RuntimeError`) aborts the whole enumeration — the readable attribute
`ok` listed after it never appears in any table. -/
theorem displayAttributes_aborts_on_runtime_error :
    displayAttributes runtimeErrObj true = .error PyErr.runtimeError
      ∧ ("ok", Except.ok listThree) ∈ runtimeErrObj.dirList :=
  ⟨rfl, List.Mem.tail _ (List.Mem.head _)⟩

/-- C3 (amended): when every shown attribute either reads-and-renders
successfully or fails with `AttributeError`, the enumeration never aborts:
it emits exactly one diagnostic naming each failing attribute (which is
thereby the only thing omitted for that attribute) and one row per
succeeding shown attribute, in directory order — every other readable
attribute still appears.  Failure kinds other than `AttributeError`
propagate instead (see the counterexample). -/
theorem displayAttributes_recovers_attribute_errors (obj : InspObj) (adv : Bool)
    (h : onlyAttrErrors adv obj.dirList = true) :
    displayAttributes obj adv = .ok (okRows adv obj.dirList, failDiags adv obj.dirList) :=
  attrsLoop_ok_of_onlyAttrErrors adv obj.dirList h

theorem displayAttributes_recovers_attribute_errors_witness :
    displayAttributes attrErrObj false
      = .ok ([rowAdd, rowDataAttr], ["Attribute broken is not accessible."]) := by
  rw [displayAttributes_recovers_attribute_errors attrErrObj false rfl]
  rfl

/-- C4 (code bug): for an object that merely carries a non-introspectable
`__code__` attribute (e.g. `types.SimpleNamespace` with `__code__ = 42`),
the source-lines step raises `TypeError` (its guard catches only `OSError`),
so the overview aborts with a raised failure instead of degrading to the
placeholder strings. -/
theorem displayOverview_raises_on_fake_code_attribute :
    displayOverview fakeCodeObj = .error PyErr.typeError
      ∧ fakeCodeObj.hasCodeAttr = true :=
  ⟨rfl, rfl⟩

/-- C5: with `includeAdvanced=false`, every row of the global-scope report
originates from an enumerated binding whose name starts with none of the
configured excluded prefixes and does not end with an underscore, and whose
value is neither a module, nor a function, nor a builtin callable. -/
theorem displayGlobals_basic_filter_excludes (insp : VarInspector)
    (ctx : CallContext) (rows : List GlobalRow)
    (h : displayGlobals insp ctx false = .ok rows) :
    ∀ row ∈ rows, ∃ v : PyVal, (row.name, v) ∈ ctx.definingEnv
      ∧ (insp.excludeNames.any fun ex => pyStartsWith row.name ex) = false
      ∧ pyEndsWith row.name "_" = false
      ∧ v.isModule = false ∧ v.isFunction = false ∧ v.isBuiltinFunction = false := by
  intro row hrow
  simp only [displayGlobals] at h
  obtain ⟨p, hp, hname⟩ := buildGlobalRows_mem _ rows h row hrow
  obtain ⟨n, v⟩ := p
  have hp2 : (n, v) ∈ ctx.definingEnv.filter
      (fun q => keepBinding insp false q.1 q.2) := mem_pySorted.mp hp
  obtain ⟨hmem, hkeep⟩ := List.mem_filter.mp hp2
  simp only [keepBinding, Bool.false_or, Bool.and_eq_true, Bool.not_eq_true',
    Bool.or_eq_false_iff] at hkeep
  subst hname
  exact ⟨v, hmem, hkeep.1.1, hkeep.2, hkeep.1.2.1.1, hkeep.1.2.1.2, hkeep.1.2.2⟩

theorem displayGlobals_basic_filter_excludes_witness :
    ∃ v : PyVal, (rowData.name, v) ∈ ctxFilterExample.definingEnv
      ∧ (insp0.excludeNames.any fun ex => pyStartsWith rowData.name ex) = false
      ∧ pyEndsWith rowData.name "_" = false
      ∧ v.isModule = false ∧ v.isFunction = false ∧ v.isBuiltinFunction = false :=
  displayGlobals_basic_filter_excludes insp0 ctxFilterExample [rowData, rowX]
    rfl rowData (List.Mem.head _)

/-- C6: with `includeAdvanced=true` no filtering is applied — whenever the
report is produced, its row names are exactly (a permutation of, namely the
sorted arrangement of) the names of all enumerated bindings. -/
theorem displayGlobals_advanced_shows_all (insp : VarInspector)
    (ctx : CallContext) (rows : List GlobalRow)
    (h : displayGlobals insp ctx true = .ok rows) :
    (rows.map GlobalRow.name).Perm (ctx.definingEnv.map Prod.fst) := by
  simp only [displayGlobals] at h
  have hnames := buildGlobalRows_names _ rows h
  have hfil : ctx.definingEnv.filter (fun p => keepBinding insp true p.1 p.2)
      = ctx.definingEnv :=
    List.filter_eq_self.mpr (fun a _ => rfl)
  rw [hnames, hfil]
  exact (pySorted_perm insp.descending ctx.definingEnv).map Prod.fst

theorem displayGlobals_advanced_shows_all_witness :
    ((advRows).map GlobalRow.name).Perm (ctxFilterExample.definingEnv.map Prod.fst) :=
  displayGlobals_advanced_shows_all insp0 ctxFilterExample advRows rfl

/-- C7: the rows of the global-scope report are ordered case-insensitively
lexicographically by name — ascending when the descending flag is false and
reversed when it is true — and the enumerated bindings
`{"b": 1, "A": 2, "c": 3}` come out in default order `A`, `b`, `c`. -/
theorem displayGlobals_sorted_case_insensitive :
    (∀ (insp : VarInspector) (ctx : CallContext) (adv : Bool) (rows : List GlobalRow),
      displayGlobals insp ctx adv = .ok rows →
        (insp.descending = false →
          (rows.map GlobalRow.name).Pairwise fun a b =>
            pyStrLe (pyLower a) (pyLower b) = true)
        ∧ (insp.descending = true →
          (rows.map GlobalRow.name).Pairwise fun a b =>
            pyStrLe (pyLower b) (pyLower a) = true))
    ∧ Except.map (fun rows => rows.map GlobalRow.name)
        (displayGlobals insp0 ctxSortExample false) = .ok ["A", "b", "c"] := by
  constructor
  · intro insp ctx adv rows h
    simp only [displayGlobals] at h
    have hnames := buildGlobalRows_names _ rows h
    constructor
    · intro hd
      rw [hnames, hd]
      exact List.pairwise_map.mpr (pairwise_pySorted_asc _)
    · intro hd
      rw [hnames, hd]
      exact List.pairwise_map.mpr (pairwise_pySorted_desc _)
  · rfl

theorem displayGlobals_sorted_case_insensitive_witness :
    (sortRows.map GlobalRow.name).Pairwise
      (fun a b => pyStrLe (pyLower a) (pyLower b) = true) :=
  (displayGlobals_sorted_case_insensitive.1 insp0 ctxSortExample false
    sortRows rfl).1 rfl

/-- C8 (counterexample): `_get_length` has no guard around `len(...)`: for a
`Sized` value whose own `__len__` raises, the exception propagates out of
the helper instead of the absence marker being returned. -/
theorem getLength_raises_on_failing_len :
    getLength badLenVal = .error PyErr.runtimeError :=
  rfl

/-- C8 (amended): the length extractor returns the length as an integer when
the value supports the length query and that query succeeds, and the absence
marker `"-"` when the value has no length concept; the helper itself raises
nothing — the only exception that can propagate is one raised by the value's
own `len` query, which passes through unchanged. -/
theorem getLength_characterization :
    (∀ v : PyVal, v.lenQuery = none → getLength v = .ok LenCell.dash)
    ∧ (∀ (v : PyVal) (n : Nat), v.lenQuery = some (.ok n) →
        getLength v = .ok (LenCell.num n))
    ∧ (∀ (v : PyVal) (e : PyErr), v.lenQuery = some (.error e) →
        getLength v = .error e) := by
  refine ⟨fun v hv => ?_, fun v n hv => ?_, fun v e hv => ?_⟩ <;>
    simp [getLength, hv]

theorem getLength_characterization_witness :
    getLength intOne = .ok LenCell.dash
      ∧ getLength listThree = .ok (LenCell.num 3)
      ∧ getLength badLenVal = .error PyErr.runtimeError :=
  ⟨getLength_characterization.1 intOne rfl,
   getLength_characterization.2.1 listThree 3 rfl,
   getLength_characterization.2.2 badLenVal PyErr.runtimeError rfl⟩

/-- C9: whenever the attribute report is produced, every readable callable
attribute that is shown has a row whose Type is `"Method"`, whose Signature
is the formatted signature string when introspectable and `"N/A"` otherwise
(the callable branch cannot raise), whose Value is the attribute's docstring
or the `"No documentation available"` placeholder, and whose SizeMB and Len
are both `"-"`. -/
theorem displayAttributes_callable_row_fields (obj : InspObj) (adv : Bool)
    (rows : List AttrRow) (msgs : List String) (attr : String) (v : PyVal)
    (h : displayAttributes obj adv = .ok (rows, msgs))
    (hmem : (attr, Except.ok v) ∈ obj.dirList)
    (hc : v.isCallable = true) (hs : shownAttr adv attr = true) :
    ∃ row ∈ rows, row.name = attr ∧ row.type = "Method"
      ∧ row.signatureCol = (match v.sigStr with
          | some s => SigCell.sig s
          | none => SigCell.na)
      ∧ row.sizeMB = SizeCell.dash ∧ row.len = LenCell.dash
      ∧ row.value = docOr v.doc :=
  attrsLoop_callable_mem adv obj.dirList attr v rows msgs h hmem hc hs

theorem displayAttributes_callable_row_fields_witness :
    ∃ row ∈ [rowAdd, rowDataAttr], row.name = "add" ∧ row.type = "Method"
      ∧ row.signatureCol = (match methodVal.sigStr with
          | some s => SigCell.sig s
          | none => SigCell.na)
      ∧ row.sizeMB = SizeCell.dash ∧ row.len = LenCell.dash
      ∧ row.value = docOr methodVal.doc :=
  displayAttributes_callable_row_fields attrErrObj false [rowAdd, rowDataAttr]
    ["Attribute broken is not accessible."] "add" methodVal rfl
    (List.Mem.head _) rfl rfl

/-- C10: `__call__` dispatches on the `None` sentinel, not truthiness: with
no target (Python `None`, modelled `none`) the global-scope report is
produced — so the value `None` itself can never reach the object branch —
and with any non-`None` target the object overview and attribute report are
produced, in particular for the falsy target `0`. -/
theorem call_dispatch_tests_none_not_truthiness :
    (∀ (insp : VarInspector) (ctx : CallContext) (adv : Bool) (s : DisplaySettings),
      (call insp ctx none adv s).1
        = Except.map Output.globalsReport (displayGlobals insp ctx adv))
    ∧ (∀ (insp : VarInspector) (ctx : CallContext) (obj : InspObj) (adv : Bool)
        (s : DisplaySettings),
      (call insp ctx (some obj) adv s).1 = objectBody obj adv)
    ∧ zeroObj.val.truthy = false
    ∧ (call insp0 ctxTwoEnvs (some zeroObj) false ambient0).1
        = objectBody zeroObj false :=
  ⟨fun _ _ _ _ => rfl, fun _ _ _ _ _ => rfl, rfl, rfl⟩

end VarInspectorModel
